import Mathlib

/-!
# Verification of `veusz/windows/plotwindow.py`

A shallow embedding of the interactive plot-view module
(`src/windows/plotwindow.py`) and proofs about it.

Modelling conventions:
* Python floats are modelled as `ℚ` (the claims under verification concern
  ordering, equality and sign of coordinate/zoom values, not rounding).
* Device (pixel) coordinates, which Qt reports as integer `QPoint`s, are
  `ℤ × ℤ`; scene coordinates (`QPointF`) are `ℚ × ℚ`.
* Qt-side effects with no bearing on the verified claims (cursors, scene
  rectangle, toolbar enabling, repaint scheduling) are noted in comments but
  not modelled.
* Signal emissions (`self.emit(...)`) are returned as an explicit list of
  `Emission` values alongside the next state.
* External collaborators (the document, the paint helper, widget picking
  capability) are function fields, mirroring the narrow interfaces the source
  calls through.
-/

namespace VeuszPlot

/-- Device (screen pixel) point, as in Qt's integer `QPoint`. -/
abbrev DPoint := ℤ × ℤ

/-- Scene-coordinate point, as in Qt's `QPointF`. -/
abbrev SPoint := ℚ × ℚ

/-- Python's `abs` on a rational, written as an executable conditional
(so that concrete instances evaluate inside the kernel). -/
def rabs (q : ℚ) : ℚ :=
  if q < 0 then -q else q

/-- Axis-aligned widget bounds in scene coordinates, indexed in the source as
`bounds[0..3]` = left, top, right, bottom. -/
structure Bounds where
  x1 : ℚ
  y1 : ℚ
  x2 : ℚ
  y2 : ℚ
  deriving DecidableEq

/-- `s.direction` of an axis widget: which screen dimension it maps. -/
inductive Direction where
  | horizontal
  | vertical
  deriving DecidableEq

/-- An axis widget as seen through the interfaces `plotwindow.py` uses:
its identity, name and path, its `direction` setting, its current
`min`/`max` range settings, and its `plotterToGraphCoords` transform
(scene coordinate within given bounds to data value, applied pointwise). -/
structure AxisW where
  id : Nat
  name : String
  path : String
  direction : Direction
  min : ℚ
  max : ℚ
  plotterToGraph : Bounds → ℚ → ℚ

/-- A plot-bearing child (`widgets.GenericPlotter`) of a graph: only its
`settings.xAxis` / `settings.yAxis` axis names are consulted. -/
structure Plotter where
  xAxisName : String
  yAxisName : String

/-- A graph widget (`widgets.Graph`): its `GenericPlotter` children in order,
and its `getAxes` lookup (the source calls `c.parent.getAxes(...)`, and the
plotters' parent is the graph itself). -/
structure Graph where
  plotters : List Plotter
  getAxis : String → Option AxisW

/-- A single staged document-edit operation
(`document.OperationSettingSet(s.get('min'|'max'), value)`). -/
inductive Operation where
  | settingSet (axisId : Nat) (field : String) (value : ℚ)
  deriving DecidableEq

/-- One `document.applyOperation(document.OperationMultiple(ops, descr))`
call: an atomic batch of operations with its description. -/
structure AppliedBatch where
  ops : List Operation
  descr : String
  deriving DecidableEq

/-- Result of a point-pick query (`widgets.PickInfo`).
Modelled from the spec: the `widgets` module is not part of `src/`; per
spec §3, a `PickInfo` holds the picked screen position, a distance metric
whose sentinel "infinite" value (here `none`) denotes "nothing found", the
originating widget, and a data-point index; its truthiness (`if pickinfo:`)
is "a widget was found". -/
structure PickInfo where
  widget : Option Nat
  screenpos : ℚ × ℚ
  index : ℤ
  distance : Option ℚ
  deriving DecidableEq

/-- The default-constructed `widgets.PickInfo()`: nothing found,
infinite distance. -/
def PickInfo.empty : PickInfo :=
  { widget := none, screenpos := (0, 0), index := 0, distance := none }

/-- Truthiness of a `PickInfo` (`if pickinfo:` / `if not pi:`). -/
def PickInfo.found (p : PickInfo) : Bool :=
  p.widget.isSome

/-- Comparison of pick distances where `none` is the `float('inf')`
sentinel: `distLt a b` is `a < b`. -/
def distLt : Option ℚ → Option ℚ → Bool
  | some a, some b => decide (a < b)
  | some _, none => true
  | none, _ => false

/-- Optional picking capability of a widget: `pickPoint` (visually closest
point), `pickPointH` (`pickPoint(..., distance='horizontal')`), and
`pickIndex` (neighbour point by index, direction `"left"`/`"right"`).
Modelled from the spec: the pick methods live on widget classes outside
`src/`; widgets lacking them raise `AttributeError` in the source, modelled
as this capability being absent. -/
structure PickCap where
  pickPoint : ℚ → ℚ → Bounds → PickInfo
  pickPointH : ℚ → ℚ → Bounds → PickInfo
  pickIndex : ℤ → String → Bounds → PickInfo

/-- A widget appearing in `self.widgetpositions`: its identity, whether it
is an `widgets.Axis` (and that axis's data), and its optional picking
capability. -/
structure SceneWidget where
  id : Nat
  asAxis : Option AxisW
  pickCap : Option PickCap

/-- The document collaborator, as consumed by this module:
`changeset`, `getNumberPages()`, `pageSize(pagenumber, scaling)`, and
`basewidget.getPage(n)` (page widgets are referred to by identity). -/
structure Document where
  changeset : ℤ
  numberPages : ℤ
  pageSize : ℤ → ℚ → ℚ × ℚ
  getPage : ℤ → Option Nat

/-- The paint-helper state left by the last render pass
(`self.painthelper`): `pointInWidgetBounds` (innermost `widgets.Graph`
containing a scene point), `identifyWidgetAtPoint` (hit test honouring the
antialias flag), and `states[axis].bounds` keyed by axis identity. -/
structure PaintHelper where
  pointInWidgetBounds : ℚ → ℚ → Option Graph
  identifyWidgetAtPoint : ℚ → ℚ → Bool → Option Nat
  axisBounds : Nat → Bounds

/-- Contents of the background pixel buffer (`self.bufferpixmap`):
freshly allocated, filled with the page background colour, or holding a
successful render of (page, zoom, changeset). -/
inductive Buf where
  | uninit
  | cleared
  | rendered (page : ℤ) (zoom : ℚ) (changeset : ℤ)
  deriving DecidableEq

/-- The click-mode values `self.clickmode` / `self.currentclickmode`
range over. -/
inductive ClickMode where
  | select
  | pick
  | graphzoom
  | scroll
  | viewgetclick
  deriving DecidableEq

/-- Picker navigation keys handled by `keyPressEvent`. -/
inductive Key where
  | left
  | right
  | up
  | down
  deriving DecidableEq

/-- Observer notifications (`self.emit(qt4.SIGNAL(...), ...)`). -/
inductive Emission where
  | axisValues (vals : List (String × ℚ))
  | pointPicked (pi : PickInfo)
  | widgetClicked (w : Nat)
  | updatePage (p : ℤ)
  | pickerEnabled (b : Bool)
  deriving DecidableEq

/-- The mutable state of a `PlotWindow`, restricted to the fields the
verified handlers read or write.  `mapToScene` is the Qt view transform;
`applied` is the log of `document.applyOperation` calls; `renderCount` /
`exceptionsReported` count render-pass invocations and exception dialogs.
The `document` collaborator is carried as a field (`self.document`). -/
structure PWState where
  document : Document
  docchangeset : ℤ
  painthelper : PaintHelper
  size : ℚ × ℚ
  oldzoom : ℚ
  zoomfactor : ℚ
  pagenumber : ℤ
  forceupdate : Bool
  ignoreclick : Bool
  clickmode : ClickMode
  currentclickmode : Option ClickMode
  widgetpositions : List (SceneWidget × Bounds)
  boundsLookup : Nat → Bounds
  grabpos : Option SPoint
  winpos : DPoint
  scrolltimerActive : Bool
  hscroll : ℤ
  vscroll : ℤ
  mapToScene : DPoint → SPoint
  antialias : Bool
  buffer : Buf
  displayed : Buf
  zoomrect : ℚ × ℚ × ℚ × ℚ
  zoomrectVisible : Bool
  pickerVisible : Bool
  pickerFocus : Bool
  pickeritemPos : ℚ × ℚ
  pickerwidgets : List SceneWidget
  pickerinfo : PickInfo
  applied : List AppliedBatch
  renderCount : Nat
  exceptionsReported : Nat
  selwidget : Option Nat

/-! ## Zoom controller (`doZoomRect`, lines 306-384) -/

/-- The axes referenced by the graph's plotter children, deduplicated by
identity (source lines 344-355: `axes[a] = True` into a dict keyed by the
axis object).  A Python 2 dict iterates in unspecified order; we keep
first-insertion order — none of the verified properties depend on the
order beyond fixing one. -/
def collectAxes (g : Graph) : List AxisW :=
  g.plotters.foldl
    (fun acc c =>
      [g.getAxis c.xAxisName, g.getAxis c.yAxisName].foldl
        (fun acc2 a? =>
          match a? with
          | some a => if acc2.any (fun b => b.id = a.id) then acc2 else acc2 ++ [a]
          | none => acc2)
        acc)
    []

/-- The scene coordinate an axis consumes from a point: `xpts` for
horizontal axes, `ypts` for vertical ones (source lines 360-363). -/
def axisPickCoord (a : AxisW) (p : SPoint) : ℚ :=
  if a.direction = Direction.horizontal then p.1 else p.2

/-- One endpoint inverse-mapped through an axis:
`axis.plotterToGraphCoords(self.painthelper.states[axis].bounds, p)`
(source lines 367-368), applied to a single point. -/
def axisMapped (ph : PaintHelper) (a : AxisW) (p : SPoint) : ℚ :=
  a.plotterToGraph (ph.axisBounds a.id) (axisPickCoord a p)

/-- The per-axis body of the range-update loop (source lines 358-380):
inverse-map both rectangle corners, swap if inverted so min ≤ max, then
stage a `min` and/or `max` setting change only where the value differs
from the current setting. -/
def axisZoomOps (ph : PaintHelper) (pt1 pt2 : SPoint) (a : AxisW) : List Operation :=
  let r0 := axisMapped ph a pt1
  let r1 := axisMapped ph a pt2
  let rr := if r1 < r0 then (r1, r0) else (r0, r1)
  (if a.min ≠ rr.1 then [Operation.settingSet a.id "min" rr.1] else []) ++
  (if a.max ≠ rr.2 then [Operation.settingSet a.id "max" rr.2] else [])

/-- Accumulation of staged operations across the per-axis loop
(`operations.append(...)` into the list built at line 342). -/
def zoomAccum (ph : PaintHelper) (pt1 pt2 : SPoint) (ops : List Operation) (a : AxisW) :
    List Operation :=
  ops ++ axisZoomOps ph pt1 pt2 a

/-- `doZoomRect(endpos)` (source lines 306-384).  `endpos` is a scene
point (the release position mapped to the scene by the caller).  Early
exits: missing grab/end point, drag below 10 (scene) pixels in either
axis, or grab point not inside any `widgets.Graph`.  Otherwise the staged
operations are applied as one `OperationMultiple` described
`"zoom axes"` — note the source applies this batch unconditionally, even
when `operations` is empty. -/
def doZoomRect (st : PWState) (endpos : Option SPoint) : PWState :=
  match st.grabpos, endpos with
  | some pt1, some pt2 =>
    if rabs (pt2.1 - pt1.1) < 10 ∨ rabs (pt2.2 - pt1.2) < 10 then st
    else
      match st.painthelper.pointInWidgetBounds pt1.1 pt1.2 with
      | none => st
      | some widget =>
        let axes := collectAxes widget
        let operations := axes.foldl (zoomAccum st.painthelper pt1 pt2) []
        { st with applied := st.applied ++ [{ ops := operations, descr := "zoom axes" }] }
  | _, _ => st

/-! ## Coordinate mapper (`axesForPoint`, lines 386-406) -/

/-- `axesForPoint(mousepos)`: map the device point into the scene, then
collect every axis widget in `self.widgetpositions` whose bounds contain
the point, paired with the data value obtained from the matching scene
coordinate (x for horizontal axes, y for vertical). -/
def axesForPoint (st : PWState) (mousepos : DPoint) : List (AxisW × ℚ) :=
  let pos := st.mapToScene mousepos
  st.widgetpositions.foldl
    (fun acc wb =>
      match wb.1.asAxis with
      | some a =>
        if wb.2.x1 ≤ pos.1 ∧ pos.1 ≤ wb.2.x2 ∧ wb.2.y1 ≤ pos.2 ∧ pos.2 ≤ wb.2.y2 then
          let val := if a.direction = Direction.horizontal then pos.1 else pos.2
          acc ++ [(a, a.plotterToGraph wb.2 val)]
        else acc
      | none => acc)
    []

/-! ## Picker engine (`emitPicked`, `doPick`, lines 408-442) -/

/-- `emitPicked(pickinfo)` (lines 408-413): store the pick, move the
crosshair to its screen position, and emit `sigPointPicked`. -/
def emitPicked (st : PWState) (pickinfo : PickInfo) : PWState × List Emission :=
  ({ st with pickerinfo := pickinfo, pickeritemPos := pickinfo.screenpos },
   [Emission.pointPicked pickinfo])

/-- The scan loop of `doPick` (lines 423-436): ask every widget for its
closest point; widgets without pick support (`AttributeError`) are
skipped; responders are appended to `pickerwidgets`; the overall best is
replaced only on a strictly smaller distance. -/
def pickStep (pos : SPoint) (acc : List SceneWidget × PickInfo) (wb : SceneWidget × Bounds) :
    List SceneWidget × PickInfo :=
  match wb.1.pickCap with
  | none => acc
  | some cap =>
    let info := cap.pickPoint pos.1 pos.2 wb.2
    let pw := acc.1 ++ [wb.1]
    if distLt info.distance acc.2.distance then (pw, info) else (pw, acc.2)

/-- The whole scan of `doPick` over `self.widgetpositions`, from an empty
responder list and an empty best pick. -/
def pickScan (wps : List (SceneWidget × Bounds)) (pos : SPoint) :
    List SceneWidget × PickInfo :=
  wps.foldl (pickStep pos) ([], PickInfo.empty)

/-- A widget either lacks pick support or reports a distance strictly
greater than `d` (including the infinite sentinel) at `pos`. -/
def fartherThan (pos : SPoint) (d : ℚ) (wb : SceneWidget × Bounds) : Bool :=
  match wb.1.pickCap with
  | none => true
  | some cap => distLt (some d) (cap.pickPoint pos.1 pos.2 wb.2).distance

/-- A widget either lacks pick support or reports a distance that is not
strictly smaller than `d` at `pos` (ties allowed). -/
def notNearerThan (pos : SPoint) (d : ℚ) (wb : SceneWidget × Bounds) : Bool :=
  match wb.1.pickCap with
  | none => true
  | some cap => !distLt (cap.pickPoint pos.1 pos.2 wb.2).distance (some d)

/-- `doPick(mousepos)` (lines 415-442): run the scan; if nothing was
found hide the crosshair, otherwise publish the winner. -/
def doPick (st : PWState) (mousepos : DPoint) : PWState × List Emission :=
  let pos := st.mapToScene mousepos
  let scan := pickScan st.widgetpositions pos
  let st1 := { st with pickerwidgets := scan.1 }
  if scan.2.found = false then ({ st1 with pickerVisible := false }, [])
  else emitPicked st1 scan.2

/-! ## Widget-click resolution (`locateClickWidget`, lines 609-624) -/

/-- `locateClickWidget(x, y)`: no pages → no-op; otherwise hit-test the
point (honouring the antialias flag), falling back to the current page
widget, and emit `sigWidgetClicked`. -/
def locateClickWidget (st : PWState) (x y : ℚ) : PWState × List Emission :=
  if st.document.numberPages = 0 then (st, [])
  else
    let w :=
      match st.painthelper.identifyWidgetAtPoint x y st.antialias with
      | none => st.document.getPage st.pagenumber
      | some wid => some wid
    match w with
    | some wid => (st, [Emission.widgetClicked wid])
    | none => (st, [])

/-! ## Click-mode state machine (mouse handlers, lines 444-554) -/

/-- `slotBecomeScrollClick` (lines 444-450): the 400 ms hold timer fired;
a still-held `select` click becomes a `scroll` gesture (the override
cursor change is not modelled). -/
def slotBecomeScrollClick (st : PWState) : PWState :=
  if st.currentclickmode = some ClickMode.select then
    { st with currentclickmode := some ClickMode.scroll }
  else st

/-- `mousePressEvent` (lines 452-490).  `onPixmap` models
`self.itemAt(event.pos()) is self.pixmapitem` (false when the user
pressed a control handle).  The base-class call and cursor changes are
not modelled. -/
def mousePressEvent (st : PWState) (pos : DPoint) (leftButton onPixmap : Bool) :
    PWState × List Emission :=
  let st := { st with ignoreclick := !onPixmap }
  if leftButton ∧ st.ignoreclick = false then
    let g := st.mapToScene pos
    let st := { st with winpos := pos, grabpos := some g }
    let step : PWState × List Emission :=
      match st.clickmode with
      | ClickMode.select => ({ st with scrolltimerActive := true }, [])
      | ClickMode.pick =>
        doPick { st with pickerVisible := true, pickerFocus := true } pos
      | ClickMode.scroll => (st, [])
      | ClickMode.graphzoom =>
        ({ st with zoomrect := (g.1, g.2, 0, 0), zoomrectVisible := true }, [])
      | ClickMode.viewgetclick => (st, [])
    ({ step.1 with currentclickmode := some st.clickmode }, step.2)
  else (st, [])

/-- `mouseMoveEvent` (lines 492-528): an `elif` chain — an active scroll
gesture consumes the move; else an active zoom-rectangle gesture (with a
grab point) resizes the overlay; else, in `select`/`pick` base mode, the
axis values under the cursor are recomputed and emitted, and an active
pick gesture additionally re-runs the pick. -/
def mouseMoveEvent (st : PWState) (pos : DPoint) : PWState × List Emission :=
  if st.currentclickmode = some ClickMode.scroll then
    let dx := st.winpos.1 - pos.1
    let dy := st.winpos.2 - pos.2
    ({ st with hscroll := st.hscroll + dx, vscroll := st.vscroll + dy, winpos := pos }, [])
  else if st.currentclickmode = some ClickMode.graphzoom ∧ st.grabpos ≠ none then
    let p := st.mapToScene pos
    let r := st.zoomrect
    ({ st with zoomrect := (r.1, r.2.1, p.1 - r.1, p.2 - r.2.1) }, [])
  else if st.clickmode = ClickMode.select ∨ st.clickmode = ClickMode.pick then
    let axes := axesForPoint st pos
    let vals := axes.map (fun a => (a.1.name, a.2))
    if st.currentclickmode = some ClickMode.pick then
      let stp := doPick st pos
      (stp.1, Emission.axisValues vals :: stp.2)
    else (st, [Emission.axisValues vals])
  else (st, [])

/-- `mouseReleaseEvent` (lines 530-554): stop the hold timer, then
resolve the gesture recorded at press time. -/
def mouseReleaseEvent (st : PWState) (pos : DPoint) (leftButton : Bool) :
    PWState × List Emission :=
  if leftButton ∧ st.ignoreclick = false then
    let st := { st with scrolltimerActive := false }
    match st.currentclickmode with
    | some ClickMode.select =>
      let p := st.mapToScene pos
      locateClickWidget st p.1 p.2
    | some ClickMode.scroll =>
      ({ st with clickmode := ClickMode.select, currentclickmode := none }, [])
    | some ClickMode.graphzoom =>
      let st := doZoomRect { st with zoomrectVisible := false } (some (st.mapToScene pos))
      ({ st with grabpos := none }, [])
    | some ClickMode.viewgetclick =>
      ({ st with clickmode := ClickMode.select }, [])
    | some ClickMode.pick =>
      ({ st with currentclickmode := none }, [])
    | none => (st, [])
  else (st, [])

/-! ## Picker keyboard navigation (`keyPressEvent`, lines 556-607) -/

/-- One step of the Up/Down candidate search (lines 580-599): skip the
currently picked widget; ask each remembered pickable widget for its
point closest *horizontally* to the last picked x; keep the candidate
with the smallest vertical offset magnitude lying strictly above (Up,
`dy > 0`) or strictly below (Down, `dy < 0`) the crosshair. -/
def upDownStep (st : PWState) (k : Key) (best : PickInfo × Option ℚ) (w : SceneWidget) :
    PickInfo × Option ℚ :=
  if some w.id = st.pickerinfo.widget then best
  else
    match w.pickCap with
    | none => best
    | some cap =>
      let pi := cap.pickPointH st.pickerinfo.screenpos.1 st.pickeritemPos.2
        (st.boundsLookup w.id)
      if pi.found = false then best
      else
        let dy := st.pickeritemPos.2 - pi.screenpos.2
        if distLt (some (rabs dy)) best.2 = true ∧
            ((k = Key.up ∧ 0 < dy) ∨ (k = Key.down ∧ dy < 0)) then
          (pi, some (rabs dy))
        else best

/-- The Up/Down candidate resulting from the search over
`self.pickerwidgets`, starting from an empty pick and infinite distance. -/
def upDownCandidate (st : PWState) (k : Key) : PickInfo :=
  (st.pickerwidgets.foldl (upDownStep st k) (PickInfo.empty, none)).1

/-- `keyPressEvent` (lines 556-607), for the picker navigation keys;
only acts while the crosshair has input focus.  Left/Right ask the
currently picked widget for a neighbour by index; Up/Down run the
candidate search and, when a pick was found, publish it and then restore
the previous pick's x screen coordinate on the stored (shared, mutated
in place in the source) `PickInfo`.  The `sigPointPicked` payload is the
object as it was at emission time, before that mutation. -/
def keyPressEvent (st : PWState) (k : Key) : PWState × List Emission :=
  if st.pickerFocus = false then (st, [])
  else
    match k with
    | Key.left | Key.right =>
      let dir : String := if k = Key.right then "right" else "left"
      match (st.widgetpositions.find? (fun wb => some wb.1.id = st.pickerinfo.widget)).map
          (fun wb => wb.1) with
      | none => (st, [])
      | some w =>
        match w.pickCap with
        | none => (st, [])
        | some cap =>
          let pickinfo := cap.pickIndex st.pickerinfo.index dir (st.boundsLookup w.id)
          if pickinfo.found = false then (st, [])
          else emitPicked st pickinfo
    | Key.up | Key.down =>
      let pickinfo := upDownCandidate st k
      if pickinfo.found = false then (st, [])
      else
        let oldx := st.pickerinfo.screenpos.1
        let stp := emitPicked st pickinfo
        ({ stp.1 with
            pickerinfo := { pickinfo with screenpos := (oldx, pickinfo.screenpos.2) } },
         stp.2)

/-! ## Page navigation (`setPageNumber`/`getPageNumber`, lines 642-659) -/

/-- `setPageNumber(pageno)`: no-op when the page is unchanged and the
document's changeset equals the last-seen one; otherwise clamp into
`[0, numberPages-1]` and force an update. -/
def setPageNumber (st : PWState) (pageno : ℤ) : PWState :=
  if st.pagenumber = pageno ∧ st.document.changeset = st.docchangeset then st
  else
    { st with
        pagenumber := max 0 (min pageno (st.document.numberPages - 1)),
        forceupdate := true }

/-- `getPageNumber()` (lines 657-659). -/
def getPageNumber (st : PWState) : ℤ :=
  st.pagenumber

/-! ## Refresh scheduler (`setOutputSize`, `slotTimeout`, lines 626-721) -/

/-- `setOutputSize` (lines 626-640): no-op when the current page index is
past the end; otherwise recompute the output pixel size for the current
zoom and, only if it changed, allocate a fresh buffer and force an update
(the scene-rectangle update is not modelled). -/
def setOutputSize (st : PWState) : PWState :=
  if st.document.numberPages ≤ st.pagenumber then st
  else
    let size := st.document.pageSize st.pagenumber st.zoomfactor
    if size ≠ st.size then
      { st with size := size, buffer := Buf.uninit, forceupdate := true }
    else st

/-- `slotTimeout` (lines 661-721).  `render` is the outcome of the
external render pass: `some ph` when `document.paintTo` and the
subsequent painting succeed, producing a new paint-helper table, `none`
when they raise.  When the zoom, changeset and force flag are all
unchanged, nothing happens.  Otherwise: hide the picker, recompute the
output size, fill the buffer with the background colour, clamp the page
number, render (counting the invocation; a failure pops the exception
dialog and records the attempted zoom/changeset), emit `sigUpdatePage`,
record zoom/changeset/force flag as seen, and push the buffer to the
screen (`self.pixmapitem.setPixmap(self.bufferpixmap)` — note this
happens on the failure path too).  The toolbar update and the
control-item refresh (`selectedWidgets`) are not modelled. -/
def slotTimeout (st : PWState) (render : Option PaintHelper) : PWState × List Emission :=
  if st.zoomfactor ≠ st.oldzoom ∨ st.document.changeset ≠ st.docchangeset ∨
      st.forceupdate = true then
    let st1 := setOutputSize { st with pickerVisible := false }
    let st2 := { st1 with
        buffer := Buf.cleared,
        pagenumber := min (st1.document.numberPages - 1) st1.pagenumber }
    let st3 :=
      if 0 ≤ st2.pagenumber then
        match render with
        | some ph =>
          { st2 with
              renderCount := st2.renderCount + 1,
              painthelper := ph,
              buffer := Buf.rendered st2.pagenumber st2.zoomfactor st2.document.changeset }
        | none =>
          { st2 with
              renderCount := st2.renderCount + 1,
              exceptionsReported := st2.exceptionsReported + 1,
              oldzoom := st2.zoomfactor,
              forceupdate := false,
              docchangeset := st2.document.changeset }
      else { st2 with pagenumber := 0 }
    let ems := [Emission.updatePage st3.pagenumber]
    let st4 := { st3 with
        oldzoom := st3.zoomfactor,
        forceupdate := false,
        docchangeset := st3.document.changeset,
        displayed := st3.buffer }
    (st4, ems)
  else (st, [])

/-! ## Discrete zoom actions (lines 816-871) -/

/-- The IEEE double value of `numpy.sqrt(2.)`, as an exact rational. -/
def sqrt2 : ℚ :=
  6369051672525773 / 4503599627370496

/-- `setZoomFactor(zoomfactor)` (lines 816-819): store the factor
unconditionally (the repaint request is not modelled). -/
def setZoomFactor (st : PWState) (zoomfactor : ℚ) : PWState :=
  { st with zoomfactor := zoomfactor }

/-- `slotViewZoomIn` (lines 821-823). -/
def slotViewZoomIn (st : PWState) : PWState :=
  setZoomFactor st (st.zoomfactor * sqrt2)

/-- `slotViewZoomOut` (lines 825-827). -/
def slotViewZoomOut (st : PWState) : PWState :=
  setZoomFactor st (st.zoomfactor / sqrt2)

/-- `slotViewZoom11` (lines 869-871). -/
def slotViewZoom11 (st : PWState) : PWState :=
  setZoomFactor st 1

/-- The width multiplier of `slotViewZoomWidth` (lines 829-843):
`vw`/`vh` are the maximum viewport size, `sbw` the vertical scrollbar
width, subtracted when the window is wider-aspected than the plot. -/
def zoomWidthMult (st : PWState) (vw vh sbw : ℚ) : ℚ :=
  let aspectwin := vw / vh
  let aspectplot := st.size.1 / st.size.2
  let width := if aspectwin > aspectplot then vw - sbw else vw
  width / st.size.1

/-- `slotViewZoomWidth` (lines 829-843). -/
def slotViewZoomWidth (st : PWState) (vw vh sbw : ℚ) : PWState :=
  setZoomFactor st (st.zoomfactor * zoomWidthMult st vw vh sbw)

/-- The height multiplier of `slotViewZoomHeight` (lines 845-859), with
`sbh` the horizontal scrollbar height. -/
def zoomHeightMult (st : PWState) (vw vh sbh : ℚ) : ℚ :=
  let aspectwin := vw / vh
  let aspectplot := st.size.1 / st.size.2
  let height := if aspectwin < aspectplot then vh - sbh else vh
  height / st.size.2

/-- `slotViewZoomHeight` (lines 845-859). -/
def slotViewZoomHeight (st : PWState) (vw vh sbh : ℚ) : PWState :=
  setZoomFactor st (st.zoomfactor * zoomHeightMult st vw vh sbh)

/-- The page multiplier of `slotViewZoomPage` (lines 861-867). -/
def zoomPageMult (st : PWState) (vw vh : ℚ) : ℚ :=
  min (vw / st.size.1) (vh / st.size.2)

/-- `slotViewZoomPage` (lines 861-867). -/
def slotViewZoomPage (st : PWState) (vw vh : ℚ) : PWState :=
  setZoomFactor st (st.zoomfactor * zoomPageMult st vw vh)

/-- `slotViewPreviousPage` (lines 873-875). -/
def slotViewPreviousPage (st : PWState) : PWState :=
  setPageNumber st (st.pagenumber - 1)

/-- `slotViewNextPage` (lines 877-879). -/
def slotViewNextPage (st : PWState) : PWState :=
  setPageNumber st (st.pagenumber + 1)

/-! ## Blocking single-click query (`getClick`, lines 914-971) -/

/-- One host-event-loop callback that `qt4.qApp.processEvents()` may
dispatch while `getClick` waits. -/
inductive UIEvent where
  | press (pos : DPoint) (leftButton onPixmap : Bool)
  | release (pos : DPoint) (leftButton : Bool)
  | move (pos : DPoint)
  | key (k : Key)
  | scrollTimeout
  | refreshTick (render : Option PaintHelper)

/-- Dispatch of one event to its handler. -/
def processEvent (st : PWState) (e : UIEvent) : PWState × List Emission :=
  match e with
  | UIEvent.press pos l p => mousePressEvent st pos l p
  | UIEvent.release pos l => mouseReleaseEvent st pos l
  | UIEvent.move pos => mouseMoveEvent st pos
  | UIEvent.key k => keyPressEvent st k
  | UIEvent.scrollTimeout => (slotBecomeScrollClick st, [])
  | UIEvent.refreshTick r => slotTimeout st r

/-- The busy-wait loop of `getClick` (lines 921-922):
`while self.clickmode == 'viewgetclick': qt4.qApp.processEvents()`.
Events are supplied as a finite list; `none` means the supply was
exhausted while still waiting (the real loop would keep spinning). -/
def waitLoop (st : PWState) : List UIEvent → Option PWState
  | [] => if st.clickmode = ClickMode.viewgetclick then none else some st
  | e :: rest =>
    if st.clickmode = ClickMode.viewgetclick then
      waitLoop (processEvent st e).1 rest
    else some st

/-- `getClick` (lines 914-971).  The mode is set to `'viewgetclick'`,
the event loop is pumped until a release handler moves the mode off
`'viewgetclick'`, and the previous mode is restored.  The code then
evaluates `PointPainter(bufferpixmap, pt.x(), pt.y())` (line 931):
`PointPainter` is neither defined in this module nor imported, so the
name lookup raises `NameError` there (and line 936 reads
`self.widgetdpi`, an attribute `__init__` never assigns), before any
axis pair is computed; the raised error is returned as `Except.error`.
The hit-testing and axis enumeration of lines 930-971 are therefore
unreachable in this revision of the source. -/
def getClick (st : PWState) (events : List UIEvent) :
    Option (PWState × Except String (List (String × ℚ))) :=
  let oldmode := st.clickmode
  let st1 := { st with clickmode := ClickMode.viewgetclick }
  match waitLoop st1 events with
  | none => none
  | some st2 =>
    let st3 := { st2 with clickmode := oldmode }
    some (st3, Except.error "NameError: name PointPainter is not defined")

/-! ## Concrete fixtures

Small closed instances used to exhibit counterexamples and to instantiate
the theorems' hypotheses on concrete inputs. -/

/-- A paint helper with no hit-test results and trivial bounds. -/
def ph0 : PaintHelper :=
  { pointInWidgetBounds := fun _ _ => none
    identifyWidgetAtPoint := fun _ _ _ => none
    axisBounds := fun _ => { x1 := 0, y1 := 0, x2 := 1, y2 := 1 } }

/-- A one-page document with a constant page size. -/
def doc0 : Document :=
  { changeset := 0
    numberPages := 1
    pageSize := fun _ _ => (100, 100)
    getPage := fun _ => some 0 }

/-- A freshly initialised window state (the `__init__` values of the
modelled fields, with an identity device-to-scene transform). -/
def st0 : PWState :=
  { document := doc0
    docchangeset := 0
    painthelper := ph0
    size := (1, 1)
    oldzoom := 1
    zoomfactor := 1
    pagenumber := 0
    forceupdate := false
    ignoreclick := false
    clickmode := ClickMode.select
    currentclickmode := none
    widgetpositions := []
    boundsLookup := fun _ => { x1 := 0, y1 := 0, x2 := 1, y2 := 1 }
    grabpos := none
    winpos := (0, 0)
    scrolltimerActive := false
    hscroll := 0
    vscroll := 0
    mapToScene := fun p => ((p.1 : ℚ), (p.2 : ℚ))
    antialias := true
    buffer := Buf.uninit
    displayed := Buf.uninit
    zoomrect := (0, 0, 0, 0)
    zoomrectVisible := false
    pickerVisible := false
    pickerFocus := false
    pickeritemPos := (0, 0)
    pickerwidgets := []
    pickerinfo := PickInfo.empty
    applied := []
    renderCount := 0
    exceptionsReported := 0
    selwidget := none }

/-- A horizontal axis whose plotter-to-data transform is the identity. -/
def cAx : AxisW :=
  { id := 0, name := "x", path := "/page1/graph1/x",
    direction := Direction.horizontal, min := 0, max := 1,
    plotterToGraph := fun _ v => v }

/-- A vertical axis whose plotter-to-data transform is the identity. -/
def cAy : AxisW :=
  { id := 1, name := "y", path := "/page1/graph1/y",
    direction := Direction.vertical, min := 0, max := 1,
    plotterToGraph := fun _ v => v }

/-- A graph holding one plotter referencing `cAx` and `cAy`. -/
def cG1 : Graph :=
  { plotters := [{ xAxisName := "x", yAxisName := "y" }]
    getAxis := fun n => if n = "x" then some cAx else if n = "y" then some cAy else none }

/-- State with a grab point at scene (20, 30) inside `cG1`. -/
def cSt1 : PWState :=
  { st0 with
      grabpos := some (20, 30)
      painthelper := { ph0 with pointInWidgetBounds := fun _ _ => some cG1 } }

/-- A horizontal axis whose range already equals the zoom target
(`min = 20`, `max = 40` for a drag from scene x 20 to 40, identity
transform): it stages no operation. -/
def cAe : AxisW :=
  { id := 0, name := "x", path := "/page1/graph1/x",
    direction := Direction.horizontal, min := 20, max := 40,
    plotterToGraph := fun _ v => v }

/-- A graph whose single plotter resolves only the axis `cAe`. -/
def cG2 : Graph :=
  { plotters := [{ xAxisName := "x", yAxisName := "y" }]
    getAxis := fun n => if n = "x" then some cAe else none }

/-- State with a grab point at scene (20, 30) inside `cG2` and no batch
applied yet. -/
def cSt2 : PWState :=
  { st0 with
      grabpos := some (20, 30)
      painthelper := { ph0 with pointInWidgetBounds := fun _ _ => some cG2 } }

/-- State whose page number (7) is outside the 3-page document's range
while the changeset matches the last-seen one. -/
def cSt4 : PWState :=
  { st0 with pagenumber := 7, document := { doc0 with numberPages := 3 } }

/-- State that last rendered successfully (buffer and screen hold a
rendered image) and has an update forced. -/
def cSt5 : PWState :=
  { st0 with
      displayed := Buf.rendered 0 1 0
      buffer := Buf.rendered 0 1 0
      forceupdate := true }

/-- An axis covering scene x ∈ [0, 50], y ∈ [0, 50]. -/
def cW6 : SceneWidget :=
  { id := 9, asAxis := some cAx, pickCap := none }

/-- State in `select` base mode while a hold-promoted scroll gesture is in
progress, with an axis widget under the cursor. -/
def cSt6 : PWState :=
  { st0 with
      clickmode := ClickMode.select
      currentclickmode := some ClickMode.scroll
      widgetpositions := [(cW6, { x1 := 0, y1 := 0, x2 := 50, y2 := 50 })] }

/-- Same state with no gesture in progress, for the amended claim. -/
def cSt6b : PWState :=
  { cSt6 with currentclickmode := none }

/-- Pick capability whose horizontal-distance query finds a point of
widget 6 at screen x 13, four pixels above the query's y. -/
def cCap7 : PickCap :=
  { pickPoint := fun _ _ _ => PickInfo.empty
    pickPointH := fun _ y _ =>
      { widget := some 6, screenpos := (13, y - 4), index := 0, distance := some 2 }
    pickIndex := fun _ _ _ => PickInfo.empty }

/-- A pickable widget (id 6) carrying `cCap7`. -/
def cW7 : SceneWidget :=
  { id := 6, asAxis := none, pickCap := some cCap7 }

/-- State with a current pick of widget 5 at screen (11, 22), the
crosshair there too, and widget 6 remembered as pickable. -/
def cSt7 : PWState :=
  { st0 with
      pickerFocus := true
      pickerinfo := { widget := some 5, screenpos := (11, 22), index := 0, distance := some 0 }
      pickeritemPos := (11, 22)
      pickerwidgets := [cW7] }

/-- The pick of widget 1 at distance 5. -/
def cPI1 : PickInfo :=
  { widget := some 1, screenpos := (1, 1), index := 0, distance := some 5 }

/-- The pick of widget 2, also at distance 5. -/
def cPI2 : PickInfo :=
  { widget := some 2, screenpos := (2, 2), index := 0, distance := some 5 }

/-- Capability always answering `cPI1`. -/
def cCapA : PickCap :=
  { pickPoint := fun _ _ _ => cPI1
    pickPointH := fun _ _ _ => cPI1
    pickIndex := fun _ _ _ => cPI1 }

/-- Capability always answering `cPI2`. -/
def cCapB : PickCap :=
  { pickPoint := fun _ _ _ => cPI2
    pickPointH := fun _ _ _ => cPI2
    pickIndex := fun _ _ _ => cPI2 }

/-- Pickable widget 1. -/
def cWp1 : SceneWidget :=
  { id := 1, asAxis := none, pickCap := some cCapA }

/-- Pickable widget 2. -/
def cWp2 : SceneWidget :=
  { id := 2, asAxis := none, pickCap := some cCapB }

/-- Unit bounds for the pick fixtures. -/
def cB : Bounds :=
  { x1 := 0, y1 := 0, x2 := 10, y2 := 10 }

/-- State listing the two equidistant pickable widgets, 1 before 2 in
paint order. -/
def cSt10 : PWState :=
  { st0 with widgetpositions := [(cWp1, cB), (cWp2, cB)] }

/-! ## Helper lemmas -/

/-- The refresh guard: when zoom, changeset and force flag are all
unchanged, `slotTimeout` does nothing and emits nothing. -/
theorem slotTimeout_idle (st : PWState) (render : Option PaintHelper)
    (hz : st.zoomfactor = st.oldzoom) (hc : st.document.changeset = st.docchangeset)
    (hf : st.forceupdate = false) :
    slotTimeout st render = (st, []) := by
  unfold slotTimeout
  rw [if_neg]
  simp [hz, hc, hf]

/-- `numpy.sqrt(2.)` is positive. -/
theorem sqrt2_pos : (0 : ℚ) < sqrt2 := by
  norm_num [sqrt2]

/-- The source's conditional swap (lines 371-372) computes the ordered
pair of the two mapped values. -/
theorem ifSwap_eq (r0 r1 : ℚ) :
    (if r1 < r0 then (r1, r0) else (r0, r1)) = (min r0 r1, max r0 r1) := by
  rcases lt_or_le r1 r0 with hlt | hle
  · rw [if_pos hlt]
    simp [min_def, max_def, not_le.mpr hlt]
  · rw [if_neg (not_lt.mpr hle)]
    simp [min_def, max_def, hle]

/-- When both the min and max settings differ from the mapped range, an
axis stages exactly the two setting changes, ordered min ≤ max. -/
theorem axisZoomOps_of_ne (ph : PaintHelper) (pt1 pt2 : SPoint) (a : AxisW)
    (hm : a.min ≠ min (axisMapped ph a pt1) (axisMapped ph a pt2))
    (hM : a.max ≠ max (axisMapped ph a pt1) (axisMapped ph a pt2)) :
    axisZoomOps ph pt1 pt2 a =
      [Operation.settingSet a.id "min" (min (axisMapped ph a pt1) (axisMapped ph a pt2)),
       Operation.settingSet a.id "max" (max (axisMapped ph a pt1) (axisMapped ph a pt2))] := by
  simp only [axisZoomOps, ifSwap_eq]
  simp [hm, hM]

/-- When both settings already equal the mapped range, an axis stages
nothing. -/
theorem axisZoomOps_of_eq (ph : PaintHelper) (pt1 pt2 : SPoint) (a : AxisW)
    (hm : a.min = min (axisMapped ph a pt1) (axisMapped ph a pt2))
    (hM : a.max = max (axisMapped ph a pt1) (axisMapped ph a pt2)) :
    axisZoomOps ph pt1 pt2 a = [] := by
  simp only [axisZoomOps, ifSwap_eq]
  simp [hm, hM]

/-- If no axis stages an operation, the accumulation loop leaves the
operation list unchanged. -/
theorem foldl_zoomAccum_nil (ph : PaintHelper) (pt1 pt2 : SPoint) :
    ∀ (l : List AxisW) (acc : List Operation),
      (∀ a ∈ l, axisZoomOps ph pt1 pt2 a = []) →
      l.foldl (zoomAccum ph pt1 pt2) acc = acc
  | [], _, _ => rfl
  | a :: l, acc, h => by
    simp only [List.foldl_cons, zoomAccum, h a (List.mem_cons_self a l), List.append_nil]
    exact foldl_zoomAccum_nil ph pt1 pt2 l acc fun b hb => h b (List.mem_cons_of_mem a hb)

/-- Past its three guards (grab and end point present, drag at least 10
scene pixels in both axes, grab point inside a graph), `doZoomRect`
applies exactly one batch, described `"zoom axes"`, holding the
operations accumulated over the graph's axes. -/
theorem doZoomRect_applies (st : PWState) (pt1 pt2 : SPoint) (g : Graph)
    (hgrab : st.grabpos = some pt1)
    (hdx : 10 ≤ rabs (pt2.1 - pt1.1)) (hdy : 10 ≤ rabs (pt2.2 - pt1.2))
    (hwidget : st.painthelper.pointInWidgetBounds pt1.1 pt1.2 = some g) :
    doZoomRect st (some pt2) =
      { st with applied := st.applied ++
          [{ ops := (collectAxes g).foldl (zoomAccum st.painthelper pt1 pt2) [],
             descr := "zoom axes" }] } := by
  have hcond : ¬ (rabs (pt2.1 - pt1.1) < 10 ∨ rabs (pt2.2 - pt1.2) < 10) := by
    push_neg
    exact ⟨hdx, hdy⟩
  unfold doZoomRect
  rw [hgrab]
  dsimp only
  rw [if_neg hcond, hwidget]

/-! ## C1 — rectangle zoom stages both axes' ranges -/

/-- C1: a zoom-rectangle gesture with a drag of at least 10 pixels in
both axes, whose grab point lies inside a graph carrying one horizontal
and one vertical axis, and whose inverse-mapped corner values differ
from both axes' current min and max settings, applies exactly one atomic
batch named `"zoom axes"` setting each axis's min to the smaller and max
to the larger of its two inverse-mapped corner values (so min ≤ max even
for an inverted drag). -/
theorem doZoomRect_zooms_axes (st : PWState) (pt1 pt2 : SPoint) (g : Graph) (a1 a2 : AxisW)
    (hgrab : st.grabpos = some pt1)
    (hdx : 10 ≤ rabs (pt2.1 - pt1.1)) (hdy : 10 ≤ rabs (pt2.2 - pt1.2))
    (hwidget : st.painthelper.pointInWidgetBounds pt1.1 pt1.2 = some g)
    (haxes : collectAxes g = [a1, a2])
    (_hd1 : a1.direction = Direction.horizontal)
    (_hd2 : a2.direction = Direction.vertical)
    (hm1 : a1.min ≠ min (axisMapped st.painthelper a1 pt1) (axisMapped st.painthelper a1 pt2))
    (hM1 : a1.max ≠ max (axisMapped st.painthelper a1 pt1) (axisMapped st.painthelper a1 pt2))
    (hm2 : a2.min ≠ min (axisMapped st.painthelper a2 pt1) (axisMapped st.painthelper a2 pt2))
    (hM2 : a2.max ≠ max (axisMapped st.painthelper a2 pt1) (axisMapped st.painthelper a2 pt2)) :
    (doZoomRect st (some pt2)).applied =
      st.applied ++
        [{ ops := [Operation.settingSet a1.id "min"
                     (min (axisMapped st.painthelper a1 pt1) (axisMapped st.painthelper a1 pt2)),
                   Operation.settingSet a1.id "max"
                     (max (axisMapped st.painthelper a1 pt1) (axisMapped st.painthelper a1 pt2)),
                   Operation.settingSet a2.id "min"
                     (min (axisMapped st.painthelper a2 pt1) (axisMapped st.painthelper a2 pt2)),
                   Operation.settingSet a2.id "max"
                     (max (axisMapped st.painthelper a2 pt1) (axisMapped st.painthelper a2 pt2))],
           descr := "zoom axes" }] := by
  rw [doZoomRect_applies st pt1 pt2 g hgrab hdx hdy hwidget]
  dsimp only
  rw [haxes]
  simp [List.foldl, zoomAccum,
    axisZoomOps_of_ne st.painthelper pt1 pt2 a1 hm1 hM1,
    axisZoomOps_of_ne st.painthelper pt1 pt2 a2 hm2 hM2]

/-- Witness for C1: dragging from scene (20, 30) to (40, 50) over `cG1`
(identity transforms) stages min/max 20/40 on the horizontal axis and
30/50 on the vertical one, in a single `"zoom axes"` batch. -/
theorem doZoomRect_zooms_axes_witness :
    (doZoomRect cSt1 (some (40, 50))).applied =
      [{ ops := [Operation.settingSet 0 "min" 20, Operation.settingSet 0 "max" 40,
                 Operation.settingSet 1 "min" 30, Operation.settingSet 1 "max" 50],
         descr := "zoom axes" }] :=
  (doZoomRect_zooms_axes cSt1 (20, 30) (40, 50) cG1 cAx cAy rfl
    (by norm_num [rabs]) (by norm_num [rabs]) rfl rfl rfl rfl
    (by decide) (by decide) (by decide) (by decide)).trans (by decide)

/-! ## C2 — empty zoom batch is still applied -/

/-- C2 counterexample: a valid ≥10-pixel drag over `cG2`, whose only
axis already has exactly the target range, still submits one (empty)
`"zoom axes"` batch through `applyOperation` — the claim says no
operation application should occur. -/
theorem doZoomRect_empty_batch_cex :
    (doZoomRect cSt2 (some (40, 50))).applied = [{ ops := [], descr := "zoom axes" }] ∧
      cSt2.applied = [] :=
  ⟨by with_unfolding_all rfl, rfl⟩

/-- C2 (amended): when a zoom-rectangle gesture passes the drag-size and
graph guards but every affected axis's inverse-mapped min and max
already equal its current settings, `doZoomRect` still submits exactly
one operation batch named `"zoom axes"`, containing zero operations (the
source calls `applyOperation` unconditionally). -/
theorem doZoomRect_empty_batch (st : PWState) (pt1 pt2 : SPoint) (g : Graph)
    (hgrab : st.grabpos = some pt1)
    (hdx : 10 ≤ rabs (pt2.1 - pt1.1)) (hdy : 10 ≤ rabs (pt2.2 - pt1.2))
    (hwidget : st.painthelper.pointInWidgetBounds pt1.1 pt1.2 = some g)
    (heq : ∀ a ∈ collectAxes g,
      a.min = min (axisMapped st.painthelper a pt1) (axisMapped st.painthelper a pt2) ∧
      a.max = max (axisMapped st.painthelper a pt1) (axisMapped st.painthelper a pt2)) :
    (doZoomRect st (some pt2)).applied =
      st.applied ++ [{ ops := [], descr := "zoom axes" }] := by
  rw [doZoomRect_applies st pt1 pt2 g hgrab hdx hdy hwidget]
  dsimp only
  rw [foldl_zoomAccum_nil st.painthelper pt1 pt2 (collectAxes g) []
    fun a ha => axisZoomOps_of_eq st.painthelper pt1 pt2 a (heq a ha).1 (heq a ha).2]

/-- Witness for C2 (amended) on the `cSt2` gesture. -/
theorem doZoomRect_empty_batch_witness :
    (doZoomRect cSt2 (some (40, 50))).applied = [{ ops := [], descr := "zoom axes" }] :=
  (doZoomRect_empty_batch cSt2 (20, 30) (40, 50) cG2 rfl
    (by norm_num [rabs]) (by norm_num [rabs]) rfl (by decide)).trans (by decide)

/-! ## C3 — idle refresh tick -/

/-- C3: on a refresh-timer tick where the zoom factor equals the
last-rendered zoom, the document changeset equals the last-seen one, and
the force flag is clear, `slotTimeout` performs no render and leaves the
whole state (pixel buffer, page number, last-seen fields, render count)
unchanged, emitting nothing. -/
theorem slotTimeout_no_rerender (st : PWState) (render : Option PaintHelper)
    (hz : st.zoomfactor = st.oldzoom) (hc : st.document.changeset = st.docchangeset)
    (hf : st.forceupdate = false) :
    slotTimeout st render = (st, []) :=
  slotTimeout_idle st render hz hc hf

/-- Witness for C3 at the freshly initialised state. -/
theorem slotTimeout_no_rerender_witness :
    slotTimeout st0 none = (st0, []) :=
  slotTimeout_no_rerender st0 none rfl rfl rfl

/-! ## C4 — page-number clamping -/

/-- C4 counterexample: with page number 7 recorded while the document has
3 pages and an unchanged changeset, `setPageNumber(7)` takes the
early-return path and `getPageNumber()` stays 7, outside
`[0, max(0, numPages-1)] = [0, 2]`. -/
theorem setPageNumber_escapes_range :
    getPageNumber (setPageNumber cSt4 7) = 7 ∧
      ¬ getPageNumber (setPageNumber cSt4 7) ≤ max 0 (cSt4.document.numberPages - 1) := by
  decide

/-- C4 (amended): for every integer `n`, provided the view's current page
number already lies in `[0, max(0, numPages-1)]` (true in every reachable
state; the early-return path of `setPageNumber` preserves rather than
establishes the bound), after `setPageNumber n` the value of
`getPageNumber` lies in `[0, max(0, numPages-1)]`. -/
theorem setPageNumber_clamps (st : PWState) (n : ℤ)
    (h0 : 0 ≤ st.pagenumber)
    (h1 : st.pagenumber ≤ max 0 (st.document.numberPages - 1)) :
    0 ≤ getPageNumber (setPageNumber st n) ∧
      getPageNumber (setPageNumber st n) ≤ max 0 (st.document.numberPages - 1) := by
  unfold setPageNumber getPageNumber
  split
  · exact ⟨h0, h1⟩
  · refine ⟨?_, ?_⟩
    · show (0 : ℤ) ≤ max 0 (min n (st.document.numberPages - 1))
      omega
    · show max 0 (min n (st.document.numberPages - 1)) ≤ max 0 (st.document.numberPages - 1)
      omega

/-- Witness for C4 (amended) at the initial state and `n = 5`. -/
theorem setPageNumber_clamps_witness :
    0 ≤ getPageNumber (setPageNumber st0 5) ∧
      getPageNumber (setPageNumber st0 5) ≤ max 0 (st0.document.numberPages - 1) :=
  setPageNumber_clamps st0 5 (by decide) (by decide)

/-! ## C8 — zoom-factor positivity -/

/-- C8 counterexample: from a state with positive zoom factor,
`setZoomFactor(-1)` stores a non-positive zoom factor — the public
interface does not maintain the invariant for arbitrary arguments. -/
theorem setZoomFactor_negative :
    0 < st0.zoomfactor ∧ ¬ 0 < (setZoomFactor st0 (-1)).zoomfactor := by
  decide

/-- C8 (amended): starting from a positive zoom factor, the zoom factor
remains positive after `slotViewZoomIn`, `slotViewZoomOut`,
`slotViewZoom11`, after `setZoomFactor z` whenever the stored argument is
itself positive, and after the fit-width/fit-height/fit-page actions
whenever the multiplier they compute from the viewport and page size is
positive; `setZoomFactor` performs no validation, so positivity is not
invariant under arbitrary arguments. -/
theorem zoomfactor_stays_positive (st : PWState) (h : 0 < st.zoomfactor) :
    0 < (slotViewZoomIn st).zoomfactor ∧
    0 < (slotViewZoomOut st).zoomfactor ∧
    0 < (slotViewZoom11 st).zoomfactor ∧
    (∀ z : ℚ, 0 < z → 0 < (setZoomFactor st z).zoomfactor) ∧
    (∀ vw vh sbw : ℚ, 0 < zoomWidthMult st vw vh sbw →
      0 < (slotViewZoomWidth st vw vh sbw).zoomfactor) ∧
    (∀ vw vh sbh : ℚ, 0 < zoomHeightMult st vw vh sbh →
      0 < (slotViewZoomHeight st vw vh sbh).zoomfactor) ∧
    (∀ vw vh : ℚ, 0 < zoomPageMult st vw vh →
      0 < (slotViewZoomPage st vw vh).zoomfactor) := by
  refine ⟨?_, ?_, ?_, ?_, ?_, ?_, ?_⟩
  · show 0 < st.zoomfactor * sqrt2
    exact mul_pos h sqrt2_pos
  · show 0 < st.zoomfactor / sqrt2
    exact div_pos h sqrt2_pos
  · show (0 : ℚ) < 1
    norm_num
  · intro z hz
    exact hz
  · intro vw vh sbw hm
    show 0 < st.zoomfactor * zoomWidthMult st vw vh sbw
    exact mul_pos h hm
  · intro vw vh sbh hm
    show 0 < st.zoomfactor * zoomHeightMult st vw vh sbh
    exact mul_pos h hm
  · intro vw vh hm
    show 0 < st.zoomfactor * zoomPageMult st vw vh
    exact mul_pos h hm

/-- Witness for C8 (amended) at the initial state. -/
theorem zoomfactor_stays_positive_witness :
    0 < (slotViewZoomIn st0).zoomfactor ∧ 0 < (setZoomFactor st0 (37 / 10)).zoomfactor :=
  ⟨(zoomfactor_stays_positive st0 (by decide)).1,
   (zoomfactor_stays_positive st0 (by decide)).2.2.2.1 (37 / 10) (by norm_num)⟩

/-! ## C5 — failed render -/

/-- `setOutputSize` only ever touches the `size`, `buffer` and
`forceupdate` fields. -/
theorem setOutputSize_eta (st : PWState) :
    ∃ sz bf fu, setOutputSize st = { st with size := sz, buffer := bf, forceupdate := fu } := by
  unfold setOutputSize
  split
  · exact ⟨st.size, st.buffer, st.forceupdate, rfl⟩
  · dsimp only
    split
    · exact ⟨_, _, _, rfl⟩
    · exact ⟨st.size, st.buffer, st.forceupdate, rfl⟩

/-- C5 counterexample: at `cSt5` the previous successful render is on
screen; after a failing render pass `slotTimeout` displays the
background-cleared buffer instead — the previously rendered pixels are
*not* left on screen (line 674 fills the buffer before the attempt and
line 721 still pushes it to the screen). -/
theorem slotTimeout_failure_cex :
    (slotTimeout cSt5 none).1.displayed = Buf.cleared ∧
      cSt5.displayed = Buf.rendered 0 1 0 ∧
      (slotTimeout cSt5 none).1.displayed ≠ cSt5.displayed :=
  ⟨by with_unfolding_all rfl, rfl, by with_unfolding_all decide⟩

/-- C5 (amended): when a timer tick renders (some guard input changed),
the clamped page is valid and the render pass raises, `slotTimeout`
reports the failure through the exception dialog, records the attempted
zoom, the document changeset and a cleared force flag as last seen — so
an immediately following tick with identical inputs does not re-render —
and displays the background-cleared pixel buffer in place of the
previously rendered image (the buffer was filled with the background
colour before the attempt and is still pushed to the screen). -/
theorem slotTimeout_failure_records (st : PWState)
    (hguard : st.zoomfactor ≠ st.oldzoom ∨ st.document.changeset ≠ st.docchangeset ∨
      st.forceupdate = true)
    (hpage : 0 ≤ min (st.document.numberPages - 1) st.pagenumber) :
    (slotTimeout st none).1.exceptionsReported = st.exceptionsReported + 1 ∧
    (slotTimeout st none).1.renderCount = st.renderCount + 1 ∧
    (slotTimeout st none).1.oldzoom = st.zoomfactor ∧
    (slotTimeout st none).1.zoomfactor = st.zoomfactor ∧
    (slotTimeout st none).1.forceupdate = false ∧
    (slotTimeout st none).1.docchangeset = st.document.changeset ∧
    (slotTimeout st none).1.displayed = Buf.cleared ∧
    (∀ render', slotTimeout (slotTimeout st none).1 render' = ((slotTimeout st none).1, [])) := by
  obtain ⟨sz, bf, fu, hso⟩ := setOutputSize_eta { st with pickerVisible := false }
  obtain ⟨p, ems, hp⟩ : ∃ p ems, slotTimeout st none = (p, ems) := ⟨_, _, rfl⟩
  rw [hp]
  dsimp only
  unfold slotTimeout at hp
  rw [if_pos hguard, hso] at hp
  dsimp only at hp
  rw [if_pos hpage] at hp
  rw [Prod.mk.injEq] at hp
  obtain ⟨hp1, -⟩ := hp
  subst hp1
  exact ⟨rfl, rfl, rfl, rfl, rfl, rfl, rfl,
    fun render' => slotTimeout_idle _ render' rfl rfl rfl⟩

/-- Witness for C5 (amended) at `cSt5`. -/
theorem slotTimeout_failure_records_witness :
    (slotTimeout cSt5 none).1.exceptionsReported = cSt5.exceptionsReported + 1 ∧
    (slotTimeout cSt5 none).1.renderCount = cSt5.renderCount + 1 ∧
    (slotTimeout cSt5 none).1.oldzoom = cSt5.zoomfactor ∧
    (slotTimeout cSt5 none).1.zoomfactor = cSt5.zoomfactor ∧
    (slotTimeout cSt5 none).1.forceupdate = false ∧
    (slotTimeout cSt5 none).1.docchangeset = cSt5.document.changeset ∧
    (slotTimeout cSt5 none).1.displayed = Buf.cleared ∧
    (∀ render', slotTimeout (slotTimeout cSt5 none).1 render' = ((slotTimeout cSt5 none).1, [])) :=
  slotTimeout_failure_records cSt5 (Or.inr (Or.inr rfl)) (by decide)

/-! ## C6 — axis values under the cursor during a gesture -/

/-- C6 counterexample: in `select` base mode but with a hold-promoted
scroll gesture in progress (and an axis widget under the cursor),
`mouseMoveEvent` emits nothing at all — the axis-value mapping is
neither recomputed nor published, contradicting "regardless of the
current per-gesture mode". -/
theorem mouseMove_scroll_gesture_cex :
    cSt6.clickmode = ClickMode.select ∧
      cSt6.currentclickmode = some ClickMode.scroll ∧
      (mouseMoveEvent cSt6 (2, 3)).2 = [] :=
  ⟨rfl, rfl, by with_unfolding_all rfl⟩

/-- C6 (amended): on a mouse move with persistent mode `select` or
`pick`, the axis-value mapping under the cursor is recomputed and
published (as the first emission) only when no scroll gesture is active
and no zoom-rectangle gesture with an armed grab point is active; those
two gestures consume the move in the handler's `elif` chain. -/
theorem mouseMove_publishes_axisvalues (st : PWState) (pos : DPoint)
    (hmode : st.clickmode = ClickMode.select ∨ st.clickmode = ClickMode.pick)
    (hscroll : st.currentclickmode ≠ some ClickMode.scroll)
    (hzoom : ¬ (st.currentclickmode = some ClickMode.graphzoom ∧ st.grabpos ≠ none)) :
    (mouseMoveEvent st pos).2.head? =
      some (Emission.axisValues ((axesForPoint st pos).map fun a => (a.1.name, a.2))) := by
  unfold mouseMoveEvent
  rw [if_neg hscroll, if_neg hzoom, if_pos hmode]
  dsimp only
  by_cases hp : st.currentclickmode = some ClickMode.pick
  · rw [if_pos hp]
    rfl
  · rw [if_neg hp]
    rfl

/-- Witness for C6 (amended) at `cSt6b` (no gesture in progress, axis
under the cursor). -/
theorem mouseMove_publishes_axisvalues_witness :
    (mouseMoveEvent cSt6b (2, 3)).2.head? =
      some (Emission.axisValues ((axesForPoint cSt6b (2, 3)).map fun a => (a.1.name, a.2))) :=
  mouseMove_publishes_axisvalues cSt6b (2, 3) (Or.inl rfl) (by decide) (by decide)

/-! ## C7 — vertical pick navigation keeps the horizontal position -/

/-- C7: on an Up or Down key press with the picker focused that finds a
candidate on another pickable widget, the stored current pick (used by
subsequent navigation, and the object observers hold) ends with its
horizontal screen position equal to the pick current before the key
press — the source overwrites the new pick's x with the old one after
publishing (lines 601-607). -/
theorem keyUpDown_preserves_horizontal (st : PWState) (k : Key)
    (hfocus : st.pickerFocus = true)
    (hk : k = Key.up ∨ k = Key.down)
    (hfound : (upDownCandidate st k).found = true) :
    (keyPressEvent st k).1.pickerinfo.screenpos.1 = st.pickerinfo.screenpos.1 := by
  have hnotfalse : ¬ st.pickerFocus = false := by simp [hfocus]
  rcases hk with hk | hk <;> subst hk <;>
    · unfold keyPressEvent
      rw [if_neg hnotfalse]
      dsimp only
      rw [if_neg (by simp [hfound])]

/-- Witness for C7 at `cSt7` and the Up key. -/
theorem keyUpDown_preserves_horizontal_witness :
    (keyPressEvent cSt7 Key.up).1.pickerinfo.screenpos.1 = cSt7.pickerinfo.screenpos.1 :=
  keyUpDown_preserves_horizontal cSt7 Key.up rfl (Or.inl rfl) (by with_unfolding_all rfl)

/-! ## C9 — the blocking single-click query -/

/-- C9: `getClick` waits for the release, restores the previous click
mode — and then raises instead of returning the axis-value list: line
931 evaluates the name `PointPainter`, which this module neither defines
nor imports (`NameError`; line 936's `self.widgetdpi` is likewise never
assigned).  At a concrete press/release trace the query ends with the
mode restored and the error, never the claimed (axis-path, value)
list. -/
theorem getClick_raises_before_returning :
    (getClick st0 [UIEvent.press (5, 5) true true, UIEvent.release (5, 5) true]).map
        (fun r => (r.1.clickmode, r.2)) =
      some (ClickMode.select,
        Except.error "NameError: name PointPainter is not defined") := by
  with_unfolding_all rfl

/-! ## C10 — pick ties go to the earliest widget in paint order -/

/-- While every widget scanned reports a distance strictly greater than
`d`, the running best of the pick scan stays strictly worse than `d`. -/
theorem foldl_pickStep_farther (pos : SPoint) (d : ℚ) :
    ∀ (l : List (SceneWidget × Bounds)) (acc : List SceneWidget × PickInfo),
      (∀ wb ∈ l, fartherThan pos d wb = true) →
      distLt (some d) acc.2.distance = true →
      distLt (some d) (l.foldl (pickStep pos) acc).2.distance = true
  | [], _, _, hacc => hacc
  | wb :: l, acc, h, hacc => by
    rw [List.foldl_cons]
    apply foldl_pickStep_farther pos d l _ fun b hb => h b (List.mem_cons_of_mem wb hb)
    have hwb := h wb (List.mem_cons_self wb l)
    unfold fartherThan at hwb
    unfold pickStep
    cases hcap : wb.1.pickCap with
    | none => exact hacc
    | some cap =>
      rw [hcap] at hwb
      dsimp only
      split
      · exact hwb
      · exact hacc

/-- Once the running best has distance exactly `d`, widgets that are not
strictly nearer than `d` never replace it. -/
theorem foldl_pickStep_stable (pos : SPoint) (d : ℚ) :
    ∀ (l : List (SceneWidget × Bounds)) (acc : List SceneWidget × PickInfo),
      acc.2.distance = some d →
      (∀ wb ∈ l, notNearerThan pos d wb = true) →
      (l.foldl (pickStep pos) acc).2 = acc.2
  | [], _, _, _ => rfl
  | wb :: l, acc, hd, h => by
    rw [List.foldl_cons]
    have hstep : (pickStep pos acc wb).2 = acc.2 := by
      unfold pickStep
      cases hcap : wb.1.pickCap with
      | none => rfl
      | some cap =>
        have hwb := h wb (List.mem_cons_self wb l)
        unfold notNearerThan at hwb
        rw [hcap] at hwb
        have hfalse : distLt (cap.pickPoint pos.1 pos.2 wb.2).distance acc.2.distance = false := by
          rw [hd]
          simpa using hwb
        dsimp only
        rw [hfalse]
        rfl
    have hrec := foldl_pickStep_stable pos d l (pickStep pos acc wb)
      (by rw [hstep, hd]) fun b hb => h b (List.mem_cons_of_mem wb hb)
    rw [hrec, hstep]

/-- C10: when the pickable widget `wb` is the first (in the
`widgetpositions` paint-order scan) to achieve the minimal distance `d`
— every earlier pickable widget is strictly farther, every later one no
nearer (ties allowed) — `doPick` stores and publishes `wb`'s pick: a
later widget replaces the running best only on a strictly smaller
distance. -/
theorem doPick_first_min_wins (st : PWState) (mousepos : DPoint)
    (pre post : List (SceneWidget × Bounds)) (wb : SceneWidget × Bounds)
    (cap : PickCap) (d : ℚ)
    (hw : st.widgetpositions = pre ++ wb :: post)
    (hcap : wb.1.pickCap = some cap)
    (hd : (cap.pickPoint (st.mapToScene mousepos).1 (st.mapToScene mousepos).2 wb.2).distance
      = some d)
    (hfound : (cap.pickPoint (st.mapToScene mousepos).1 (st.mapToScene mousepos).2 wb.2).found
      = true)
    (hpre : pre.all (fartherThan (st.mapToScene mousepos) d) = true)
    (hpost : post.all (notNearerThan (st.mapToScene mousepos) d) = true) :
    (doPick st mousepos).1.pickerinfo =
      cap.pickPoint (st.mapToScene mousepos).1 (st.mapToScene mousepos).2 wb.2 ∧
    (doPick st mousepos).2 =
      [Emission.pointPicked
        (cap.pickPoint (st.mapToScene mousepos).1 (st.mapToScene mousepos).2 wb.2)] := by
  have hpre' := List.all_eq_true.mp hpre
  have hpost' := List.all_eq_true.mp hpost
  have hscan : (pickScan st.widgetpositions (st.mapToScene mousepos)).2 =
      cap.pickPoint (st.mapToScene mousepos).1 (st.mapToScene mousepos).2 wb.2 := by
    rw [hw]
    unfold pickScan
    rw [List.foldl_append, List.foldl_cons]
    have hacc : distLt (some d)
        (pre.foldl (pickStep (st.mapToScene mousepos)) ([], PickInfo.empty)).2.distance
        = true :=
      foldl_pickStep_farther (st.mapToScene mousepos) d pre ([], PickInfo.empty) hpre' rfl
    have hstep : (pickStep (st.mapToScene mousepos)
        (pre.foldl (pickStep (st.mapToScene mousepos)) ([], PickInfo.empty)) wb).2 =
        cap.pickPoint (st.mapToScene mousepos).1 (st.mapToScene mousepos).2 wb.2 := by
      unfold pickStep
      rw [hcap]
      dsimp only
      rw [if_pos (by rw [hd]; exact hacc)]
    rw [foldl_pickStep_stable (st.mapToScene mousepos) d post _ (by rw [hstep, hd]) hpost',
      hstep]
  unfold doPick
  dsimp only
  rw [hscan]
  rw [if_neg (by simp [hfound])]
  exact ⟨rfl, rfl⟩

/-- Witness for C10: widgets 1 and 2 both report distance 5; the pick of
widget 1 (earlier in paint order) is stored and published. -/
theorem doPick_first_min_wins_witness :
    (doPick cSt10 (0, 0)).1.pickerinfo = cPI1 ∧
      (doPick cSt10 (0, 0)).2 = [Emission.pointPicked cPI1] :=
  doPick_first_min_wins cSt10 (0, 0) [] [(cWp2, cB)] (cWp1, cB) cCapA 5
    rfl rfl rfl rfl rfl (by with_unfolding_all rfl)

end VeuszPlot
